import Mathlib

/-!
Shallow embedding of the CPG POD tracker core (repository jeffperkel/CPG_POD_TEST,
files src/pod_agent/logic.py and src/pod_agent/database.py), together with proofs
settling the frozen claims about its specification.

Modelling conventions, used consistently below:
* Dates are day indices (`Nat`).  The source stores effective dates as ISO
  "YYYY-MM-DD" strings and compares them with `<=`; lexicographic order on such
  strings agrees with chronological order, so `Nat` with `≤` is a faithful image.
* Log timestamps ("%Y-%m-%d %H:%M:%S" strings, compared lexicographically in the
  bulk sort) are likewise day-second indices (`Nat`).
* The fuzzy scorer of the `thefuzz` library is an external dependency; it enters
  the embedding as an explicit parameter `score : String → String → Nat`
  (`process.extractOne` keeps the first candidate attaining the maximal score).
* Fallible Python code is embedded in `Except PyErr`.  Python raises
  `AttributeError` when a module attribute does not exist and `KeyError` when a
  dict key is missing; both cases occur in this source and are modelled
  explicitly, because `logic.process_new_transaction` calls
  `database.get_current_total_for_item`, a function `database.py` never defines,
  and `database.check_for_duplicate` / `database.insert_transaction` read the
  dict keys "sku_id" / "retailer_id" which the dict built by
  `logic.validate_and_enrich_data` does not contain (its keys are "sku" and
  "retailer").
* The persisted transactions ledger is the list of committed transaction
  records.  `database.init_db_and_seed` creates the `transactions` table with
  columns (trx_id, sku_id, retailer_id, status, quantity_changed,
  effective_date, log_timestamp, user_id, source); the bulk INSERT of
  `logic.process_bulk_file` names the columns (trx_id, sku, product_name,
  retailer, division, status, quantity_changed, effective_date, log_timestamp,
  user_id, source).  sqlite refuses to prepare an INSERT naming a column the
  table does not have, so on a database created by this repository the bulk
  persistence step always fails; both column lists are embedded below and the
  failure condition is computed from them, not assumed.
-/

namespace CPGPod


/-- The Python exceptions the embedded code can raise. -/
inductive PyErr where
  | valueError (msg : String)
  | keyError (key : String)
  | attributeError (name : String)
  | typeError (msg : String)
  deriving DecidableEq, Repr

/-- A row of the `skus` master table (database.init_db_and_seed): integer primary
key `id`, canonical `product_name`, external SKU code in column `sku_id`. -/
structure SkuRow where
  id : Nat
  product_name : String
  sku_id : String
  deriving DecidableEq, Repr

/-- A row of the `retailers` master table: integer primary key `id`, machine
`retailer_key`, display `retailer_name`, `division`. -/
structure RetailerRow where
  id : Nat
  retailer_key : String
  retailer_name : String
  division : String
  deriving DecidableEq, Repr

/-- The two seeded master tables, read-only for the core. -/
structure MasterData where
  skus : List SkuRow
  retailers : List RetailerRow
  deriving DecidableEq, Repr

/-- ASCII lowercasing of one character, as Python str.lower acts on the ASCII
text this system handles. -/
def charLower (c : Char) : Char :=
  if 65 ≤ c.toNat ∧ c.toNat ≤ 90 then Char.ofNat (c.toNat + 32) else c

/-- Python str.lower on ASCII strings. -/
def pyLower (s : String) : String := String.mk (s.data.map charLower)

/-- logic.FUZZY_MATCH_THRESHOLD = 80. -/
def FUZZY_MATCH_THRESHOLD : Nat := 80

/-- Scan of `thefuzz.process.extractOne`: fold over the remaining candidates
keeping the current best `(choice, score)`, replacing it only on a strictly
larger score, so the first candidate attaining the maximum wins. -/
def extractGo (score : String → String → Nat) (q : String) :
    String × Nat → List String → String × Nat
  | best, [] => best
  | best, c :: cs =>
    if best.2 < score q c then extractGo score q (c, score q c) cs
    else extractGo score q best cs

/-- `thefuzz.process.extractOne(query, choices)`: the first best-scoring
candidate with its score, or `none` on an empty candidate list. -/
def extractOne (score : String → String → Nat) (q : String) :
    List String → Option (String × Nat)
  | [] => none
  | c :: cs => some (extractGo score q (c, score q c) cs)

/-- logic.find_best_match (logic.py lines 25-27).  A falsy (empty) query returns
None at once; otherwise the query is lowercased, `extractOne` is run and its
best match is returned only when the score meets FUZZY_MATCH_THRESHOLD.  On an
empty candidate list `extractOne` yields None and the source's tuple unpacking
`best_match, score = ...` raises TypeError. -/
def find_best_match (score : String → String → Nat) (query : String)
    (valid_choices_list : List String) : Except PyErr (Option String) :=
  if query = "" then .ok none
  else
    match extractOne score (pyLower query) valid_choices_list with
    | none => .error (.typeError "cannot unpack non-iterable NoneType object")
    | some (best_match, s) =>
      .ok (if FUZZY_MATCH_THRESHOLD ≤ s then some best_match else none)

/-- The raw fields of one submitted transaction after the source's alternate key
spellings (product_name / Product / sku_name, ...) are collapsed: each field is
the first value those lookups produce, or `none`. -/
structure ParsedData where
  product_name : Option String
  retailer_name : Option String
  quantity : Option Int
  status : Option String
  effective_date : Option Nat
  deriving DecidableEq, Repr

/-- Python truthiness of an optional string: missing and empty are falsy. -/
def truthyStr : Option String → Option String
  | some s => if s = "" then none else some s
  | none => none

/-- Python truthiness of an optional integer: missing and zero are falsy
(`parsed_data.get("quantity")` returning 0 fails the `all([...])` check). -/
def truthyInt : Option Int → Option Int
  | some n => if n = 0 then none else some n
  | none => none

/-- The enriched transaction dict returned by logic.validate_and_enrich_data
(logic.py line 66), field for field and in the dict's insertion order.  The
field `sku` holds the external SKU code fetched by
`SELECT sku_id FROM skus WHERE product_name = ?`; `retailer` holds the display
`retailer_name`. -/
structure Enriched where
  trx_id : String
  sku : String
  product_name : String
  retailer : String
  division : String
  status : String
  quantity_changed : Int
  effective_date : Nat
  log_timestamp : Nat
  user_id : String
  source : String
  deriving DecidableEq, Repr

/-- A Python value stored in the enriched dict. -/
inductive PyVal where
  | str (s : String)
  | int (i : Int)
  | nat (n : Nat)
  deriving DecidableEq, Repr

/-- Dict lookup on the enriched transaction: exactly the eleven keys written at
logic.py line 66, any other key is absent. -/
def Enriched.dictGet (t : Enriched) (k : String) : Option PyVal :=
  if k = "trx_id" then some (.str t.trx_id)
  else if k = "sku" then some (.str t.sku)
  else if k = "product_name" then some (.str t.product_name)
  else if k = "retailer" then some (.str t.retailer)
  else if k = "division" then some (.str t.division)
  else if k = "status" then some (.str t.status)
  else if k = "quantity_changed" then some (.int t.quantity_changed)
  else if k = "effective_date" then some (.nat t.effective_date)
  else if k = "log_timestamp" then some (.nat t.log_timestamp)
  else if k = "user_id" then some (.str t.user_id)
  else if k = "source" then some (.str t.source)
  else none

/-- `transaction_data[k]`: a missing key raises KeyError. -/
def Enriched.item (t : Enriched) (k : String) : Except PyErr PyVal :=
  match t.dictGet k with
  | none => .error (.keyError k)
  | some v => .ok v

/-- Message of `ValueError("Missing one or more required fields.")`. -/
def missingFieldsMsg : String := "Missing one or more required fields."

/-- Message of `ValueError(f"Invalid SKU: \x27{product_input}\x27.")`. -/
def invalidSkuMsg (input : String) : String := "Invalid SKU: \'" ++ input ++ "\'."

/-- Message of `ValueError(f"Invalid Retailer: \x27{retailer_input}\x27.")`. -/
def invalidRetailerMsg (input : String) : String :=
  "Invalid Retailer: \'" ++ input ++ "\'."

/-- Message of the invalid-intent ValueError (logic.py line 63). -/
def invalidIntentMsg (intent : String) : String :=
  "Invalid action intent: \'" ++ intent ++ "\'. Must be \'planned\' or \'lost\'."

/-- logic.validate_and_enrich_data (logic.py lines 29-66).  `today` is
`date.today()` at call time and `now` the wall clock used for both the
transaction id suffix and `log_timestamp`.  Steps, in source order: truthiness
check of the four required fields; fuzzy resolution of the product against the
`product_name` column of `skus` and of the retailer against the `retailer_key`
column of `retailers`, each failure a ValueError naming the raw input; master
row lookup; date defaulting to today; intent dispatch on the lowercased status
computing `quantity_changed = abs(quantity)` for "planned" (future dates
planned, others live) and `-abs(quantity)` for "lost". -/
def validate_and_enrich_data (score : String → String → Nat) (md : MasterData)
    (today : Nat) (now : Nat) (parsed : ParsedData)
    (user_id src : String) : Except PyErr Enriched :=
  match truthyStr parsed.product_name, truthyStr parsed.retailer_name,
      truthyInt parsed.quantity, truthyStr parsed.status with
  | some product_input, some retailer_input, some quantity, some intent_input =>
    match find_best_match score product_input (md.skus.map (·.product_name)) with
    | .error e => .error e
    | .ok none => .error (.valueError (invalidSkuMsg product_input))
    | .ok (some sku_key) =>
      match find_best_match score retailer_input
          (md.retailers.map (·.retailer_key)) with
      | .error e => .error e
      | .ok none => .error (.valueError (invalidRetailerMsg retailer_input))
      | .ok (some retailer_key) =>
        match md.skus.find? (fun r => r.product_name == sku_key) with
        | none => .error (.typeError "NoneType object is not subscriptable")
        | some skuRow =>
          match md.retailers.find? (fun r => r.retailer_key == retailer_key) with
          | none => .error (.typeError "NoneType object is not subscriptable")
          | some retRow =>
            let validated_date := parsed.effective_date.getD today
            let intent := pyLower intent_input
            if intent = "planned" then
              .ok { trx_id := skuRow.sku_id ++ "-" ++ toString now,
                    sku := skuRow.sku_id, product_name := sku_key,
                    retailer := retRow.retailer_name, division := retRow.division,
                    status := if today < validated_date then "planned" else "live",
                    quantity_changed := |quantity|,
                    effective_date := validated_date, log_timestamp := now,
                    user_id := user_id, source := src }
            else if intent = "lost" then
              .ok { trx_id := skuRow.sku_id ++ "-" ++ toString now,
                    sku := skuRow.sku_id, product_name := sku_key,
                    retailer := retRow.retailer_name, division := retRow.division,
                    status := "lost", quantity_changed := -|quantity|,
                    effective_date := validated_date, log_timestamp := now,
                    user_id := user_id, source := src }
            else .error (.valueError (invalidIntentMsg intent))
  | _, _, _, _ => .error (.valueError missingFieldsMsg)

/-- The committed transactions ledger.  The source keys persisted rows by the
master-data integer ids; the embedding's rows carry the canonical names those
ids determine (the seeded catalogs map names and ids one to one). -/
abbrev Ledger := List Enriched

/-- database.get_total_for_item_by_date (database.py lines 190-200):
`SELECT SUM(quantity_changed) ... WHERE sku_id = ? AND retailer_id = ? AND
effective_date <= ?`, an empty sum reported as 0.  Keyed here by the canonical
(product_name, retailer_name) pair standing for the id pair. -/
def get_total_for_item_by_date (ledger : Ledger) (product retailer : String)
    (d : Nat) : Int :=
  ((ledger.filter fun r =>
      r.product_name == product && r.retailer == retailer &&
        decide (r.effective_date ≤ d)).map (·.quantity_changed)).sum

/-- database.check_for_duplicate (database.py lines 117-125).  The SQL
parameters are built by reading `transaction_data["sku_id"]`,
`["retailer_id"]`, `["quantity_changed"]`, `["effective_date"]` in that order;
the first two keys are absent from the enriched dict, so the call raises
KeyError before the query runs. -/
def check_for_duplicate (ledger : Ledger) (transaction_data : Enriched) :
    Except PyErr Bool := do
  let skuParam ← transaction_data.item "sku_id"
  let retailerParam ← transaction_data.item "retailer_id"
  let qtyParam ← transaction_data.item "quantity_changed"
  let dateParam ← transaction_data.item "effective_date"
  .ok (ledger.any fun r =>
    r.dictGet "sku_id" == some skuParam && r.dictGet "retailer_id" == some retailerParam &&
      r.dictGet "quantity_changed" == some qtyParam &&
      r.dictGet "effective_date" == some dateParam)

/-- database.insert_transaction (database.py lines 127-139): the parameter tuple
reads the keys trx_id, sku_id, retailer_id, status, quantity_changed,
effective_date, log_timestamp, user_id, source left to right, raising KeyError
at "sku_id". -/
def insert_transaction (ledger : Ledger) (transaction_data : Enriched) :
    Except PyErr Ledger := do
  let _p1 ← transaction_data.item "trx_id"
  let _p2 ← transaction_data.item "sku_id"
  let _p3 ← transaction_data.item "retailer_id"
  let _p4 ← transaction_data.item "status"
  let _p5 ← transaction_data.item "quantity_changed"
  let _p6 ← transaction_data.item "effective_date"
  let _p7 ← transaction_data.item "log_timestamp"
  let _p8 ← transaction_data.item "user_id"
  let _p9 ← transaction_data.item "source"
  .ok (ledger ++ [transaction_data])

/-- logic.process_new_transaction (logic.py lines 68-84).  For a loss it calls
`database.get_current_total_for_item(product_name=..., retailer_name=...)`;
database.py defines no function of that name, so the attribute lookup raises
AttributeError.  Otherwise the duplicate check and the insert run as embedded
above. -/
def process_new_transaction (ledger : Ledger) (validated_data : Enriched) :
    Except PyErr Ledger :=
  if validated_data.quantity_changed < 0 then
    .error (.attributeError "get_current_total_for_item")
  else
    match check_for_duplicate ledger validated_data with
    | .error e => .error e
    | .ok true => .error (.valueError "Duplicate transaction detected.")
    | .ok false => insert_transaction ledger validated_data

/-- The bulk sort key of logic.py line 96: `(effective_date, log_timestamp)`
ascending, lexicographically. -/
def bulkLE (a b : Enriched) : Prop :=
  a.effective_date < b.effective_date ∨
    (a.effective_date = b.effective_date ∧ a.log_timestamp ≤ b.log_timestamp)

instance instDecBulkLE : DecidableRel bulkLE := fun a b => by
  unfold bulkLE; infer_instance

instance instTotalBulkLE : IsTotal Enriched bulkLE :=
  ⟨fun a b => by simp only [bulkLE]; omega⟩

instance instTransBulkLE : IsTrans Enriched bulkLE :=
  ⟨fun a b c h1 h2 => by simp only [bulkLE] at h1 h2 ⊢; omega⟩

/-- str() of a raised exception, as interpolated into the bulk row errors. -/
def pyErrMsg : PyErr → String
  | .valueError m => m
  | .keyError k => "\'" ++ k ++ "\'"
  | .attributeError n =>
    "module \'pod_agent.database\' has no attribute \'" ++ n ++ "\'"
  | .typeError m => m

/-- Row-wise enrichment loop of logic.process_bulk_file (lines 90-94): each
parsed row is enriched with its own clock reading; a failure is recorded as
"Row {index + 2}: {e}" (the CSV header makes data row 0 line 2 of the file) and
the row is dropped. -/
def enrichRows (score : String → String → Nat) (md : MasterData) (today : Nat)
    (user_id : String) : Nat → List (ParsedData × Nat) →
    List Enriched × List String
  | _, [] => ([], [])
  | index, (row, ts) :: rest =>
    match validate_and_enrich_data score md today ts row user_id "bulk_upload" with
    | .ok e =>
      (e :: (enrichRows score md today user_id (index + 1) rest).1,
        (enrichRows score md today user_id (index + 1) rest).2)
    | .error err =>
      ((enrichRows score md today user_id (index + 1) rest).1,
        ("Row " ++ toString (index + 2) ++ ": " ++ pyErrMsg err) ::
          (enrichRows score md today user_id (index + 1) rest).2)

/-- The in-batch consistency error of logic.py line 104. -/
def consistencyMsg (trx : Enriched) (current_total : Int) : String :=
  "File consistency error on " ++ toString trx.effective_date ++ " for \'" ++
    trx.product_name ++ "\': Trying to lose " ++ toString |trx.quantity_changed| ++
    ", but simulated total is only " ++ toString current_total ++ "."

/-- Functional update of the `temp_state` dict. -/
def updState (st : String × String → Int) (key : String × String) (v : Int) :
    String × String → Int :=
  fun k => if k = key then v else st k

/-- The simulation loop of logic.process_bulk_file (lines 97-107): walk the
sorted transactions keeping a per-(product_name, retailer) running total
(`temp_state.get(key, 0)`); a loss larger than the current total is recorded as
a consistency error and skipped, every other row updates the total and joins
the insert list.  Returns (rows kept, consistency errors in order). -/
def bulkSimulate (st : String × String → Int) :
    List Enriched → List Enriched × List String
  | [] => ([], [])
  | trx :: rest =>
    if trx.quantity_changed < 0 ∧
        st (trx.product_name, trx.retailer) < |trx.quantity_changed| then
      ((bulkSimulate st rest).1,
        consistencyMsg trx (st (trx.product_name, trx.retailer)) ::
          (bulkSimulate st rest).2)
    else
      (trx ::
          (bulkSimulate (updState st (trx.product_name, trx.retailer)
            (st (trx.product_name, trx.retailer) + trx.quantity_changed)) rest).1,
        (bulkSimulate (updState st (trx.product_name, trx.retailer)
          (st (trx.product_name, trx.retailer) + trx.quantity_changed)) rest).2)

/-- Column list of the `transactions` table created by
database.init_db_and_seed (database.py lines 37-51). -/
def transactionsTableColumns : List String :=
  ["trx_id", "sku_id", "retailer_id", "status", "quantity_changed",
   "effective_date", "log_timestamp", "user_id", "source"]

/-- Column list named by the bulk INSERT of logic.process_bulk_file
(logic.py line 112). -/
def bulkInsertColumns : List String :=
  ["trx_id", "sku", "product_name", "retailer", "division", "status",
   "quantity_changed", "effective_date", "log_timestamp", "user_id", "source"]

/-- sqlite prepares the bulk INSERT only when every column it names exists in
the `transactions` table; on the schema this repository creates the column
"sku" does not, so this is false and `cursor.executemany` raises
OperationalError. -/
def bulkInsertPrepares : Bool :=
  bulkInsertColumns.all fun c => transactionsTableColumns.contains c

/-- The error entry appended when the batch insert raises
(`f"Database batch insert failed: {e}"`, logic.py line 115). -/
def dbInsertFailMsg : String :=
  "Database batch insert failed: table transactions has no column named sku"

/-- What logic.process_bulk_file returns, plus the ledger it leaves behind. -/
structure BulkResult where
  count : Nat
  errors : List String
  ledger : Ledger
  deriving DecidableEq, Repr

/-- The enriched rows of a batch in application order: successfully enriched
rows sorted by (effective_date, log_timestamp) ascending (logic.py line 96;
Python's sort and insertion sort are both stable, so equal keys keep file
order). -/
def bulkSortedRows (score : String → String → Nat) (md : MasterData)
    (today : Nat) (user_id : String) (rows : List (ParsedData × Nat)) :
    List Enriched :=
  List.insertionSort bulkLE (enrichRows score md today user_id 0 rows).1

/-- Simulation outcome of a batch: the rows that pass the in-memory consistency
check (in application order) and the consistency errors, with the running
totals seeded from the empty `temp_state = {}`. -/
def bulkSimOutcome (score : String → String → Nat) (md : MasterData)
    (today : Nat) (user_id : String) (rows : List (ParsedData × Nat)) :
    List Enriched × List String :=
  bulkSimulate (fun _ => 0) (bulkSortedRows score md today user_id rows)

/-- logic.process_bulk_file (logic.py lines 86-117) from the parsed CSV rows on:
enrichment, early return when nothing enriched, sort, in-memory simulation,
then the single batched INSERT; when the INSERT raises, the connection is
rolled back, one "Database batch insert failed" entry is appended and the
survivor list is cleared, so the returned count is its length after that. -/
def process_bulk_file (score : String → String → Nat) (md : MasterData)
    (today : Nat) (user_id : String) (rows : List (ParsedData × Nat))
    (ledger : Ledger) : BulkResult :=
  if (enrichRows score md today user_id 0 rows).1 = [] then
    ⟨0, (enrichRows score md today user_id 0 rows).2, ledger⟩
  else if (bulkSimOutcome score md today user_id rows).1 = [] then
    ⟨0, (enrichRows score md today user_id 0 rows).2 ++
      (bulkSimOutcome score md today user_id rows).2, ledger⟩
  else if bulkInsertPrepares then
    ⟨(bulkSimOutcome score md today user_id rows).1.length,
      (enrichRows score md today user_id 0 rows).2 ++
        (bulkSimOutcome score md today user_id rows).2,
      ledger ++ (bulkSimOutcome score md today user_id rows).1⟩
  else
    ⟨0, (enrichRows score md today user_id 0 rows).2 ++
      (bulkSimOutcome score md today user_id rows).2 ++ [dbInsertFailMsg], ledger⟩

/-- One call that can commit transactions: a single submission (api.py
/transactions: validate_and_enrich_data then process_new_transaction) or a bulk
upload (/transactions/bulk_upload: process_bulk_file).  Each carries the
`date.today()` and clock readings of its moment. -/
inductive Op where
  | single (today : Nat) (now : Nat) (parsed : ParsedData)
      (user_id src : String)
  | bulk (today : Nat) (user_id : String) (rows : List (ParsedData × Nat))

/-- The ledger after one call: a raised exception leaves it unchanged. -/
def applyOp (score : String → String → Nat) (md : MasterData) (ledger : Ledger) :
    Op → Ledger
  | .single today now parsed uid src =>
    match validate_and_enrich_data score md today now parsed uid src with
    | .error _ => ledger
    | .ok e =>
      match process_new_transaction ledger e with
      | .error _ => ledger
      | .ok l2 => l2
  | .bulk today uid rows => (process_bulk_file score md today uid rows ledger).ledger

/-- The ledger produced by a sequence of calls against an initially empty
transactions table. -/
def runOps (score : String → String → Nat) (md : MasterData) (ops : List Op) :
    Ledger :=
  ops.foldl (applyOp score md) []

/-- The (product_name, retailer) grouping key of a ledger row. -/
def keyOf (t : Enriched) : String × String := (t.product_name, t.retailer)

/-- logic.execute_query_plan (logic.py lines 125-170) for the plan shape every
claim instance uses (the /summary_table_query and export plan): group_by
[product_name, retailer], empty filter map (the filter loop is the identity on
an empty map).  If `include_future_dates_explicit` is false only rows with
effective_date <= now survive the cutoff; the grouped result has one entry per
distinct key carrying the integer sum of quantity_changed (pandas emits the
keys in sorted order, this embedding in first-occurrence order; no claim
depends on entry order). -/
def execute_query_plan (txns : List Enriched) (include_future_dates : Bool)
    (today : Nat) : List ((String × String) × Int) :=
  ((if include_future_dates then txns
      else txns.filter fun t => decide (t.effective_date ≤ today)).map keyOf).dedup.map
    fun k =>
      (k, (((if include_future_dates then txns
          else txns.filter fun t => decide (t.effective_date ≤ today)).filter
            fun t => keyOf t == k).map (·.quantity_changed)).sum)

/-- Row labels (products) of the grouped result, in first-occurrence order. -/
def pivotProducts (data : List ((String × String) × Int)) : List String :=
  (data.map (·.1.1)).dedup

/-- Column labels (retailers) of the grouped result. -/
def pivotRetailers (data : List ((String × String) × Int)) : List String :=
  (data.map (·.1.2)).dedup

/-- `unstack(level=Retailer).fillna(0).astype(int)`: the net quantity at one
(product, retailer) cell, integer 0 for a combination absent from the grouped
data. -/
def pivotBase (data : List ((String × String) × Int)) (p r : String) : Int :=
  ((data.filter fun e => e.1 == (p, r)).map (·.2)).sum

/-- The pivot matrix by its labels and cell contents. -/
structure PivotTable where
  rowLabels : List String
  colLabels : List String
  cell : String → String → Int

/-- logic._process_for_export (logic.py lines 313-368) on a grouped
(product, retailer) result.  Empty input returns an empty frame.  Otherwise the
series is unstacked into a product × retailer matrix with missing combinations
filled by integer 0, a "Grand Total" column of row-wise sums is appended, and
then a "Grand Total" row of column-wise sums over the product rows (the row
sums at that moment include the new column, so the corner cell is the overall
net total). -/
def processForExport (data : List ((String × String) × Int)) : PivotTable :=
  if data = [] then ⟨[], [], fun _ _ => 0⟩
  else
    ⟨pivotProducts data ++ ["Grand Total"],
      pivotRetailers data ++ ["Grand Total"],
      fun p r =>
        if p = "Grand Total" then
          ((pivotProducts data).map fun p2 =>
            if r = "Grand Total" then
              ((pivotRetailers data).map (pivotBase data p2)).sum
            else pivotBase data p2 r).sum
        else if r = "Grand Total" then
          ((pivotRetailers data).map (pivotBase data p)).sum
        else pivotBase data p r⟩

/-!
Concrete instances used by counterexamples and witnesses.  `exactScore` is a
scorer giving 100 to an exact (already lowercase) match and 0 otherwise;
`zeroScore` scores every pair 0 (a query below the threshold against every
candidate).  `md0` is a one-product, one-retailer master catalog.
-/

/-- Scorer for concrete runs: 100 on equality, 0 otherwise. -/
def exactScore (q c : String) : Nat := if q = c then 100 else 0

/-- Scorer under which every candidate scores below the threshold. -/
def zeroScore (_q _c : String) : Nat := 0

/-- A seeded master catalog with one SKU and one retailer. -/
def md0 : MasterData :=
  ⟨[⟨1, "cheerios", "016"⟩], [⟨1, "walmart", "Walmart", "National"⟩]⟩

/-- Bulk row: planned gain of 5 cheerios at walmart effective day 10. -/
def gainP : ParsedData :=
  ⟨some "cheerios", some "walmart", some 5, some "planned", some 10⟩

/-- Bulk row: loss of 5 cheerios at walmart effective day 10. -/
def lossP : ParsedData :=
  ⟨some "cheerios", some "walmart", some 5, some "lost", some 10⟩

/-- Bulk row: loss of 3 cheerios at walmart effective day 10. -/
def loss3P : ParsedData :=
  ⟨some "cheerios", some "walmart", some 3, some "lost", some 10⟩

/-- The enrichment of `gainP` at clock `ts` with today = 100 (day 10 is past,
so the status is live). -/
def gainE (ts : Nat) : Enriched :=
  ⟨"016-" ++ toString ts, "016", "cheerios", "Walmart", "National", "live", 5,
    10, ts, "u", "bulk_upload"⟩

/-- The enrichment of `lossP` at clock `ts`. -/
def lossE (ts : Nat) : Enriched :=
  ⟨"016-" ++ toString ts, "016", "cheerios", "Walmart", "National", "lost", -5,
    10, ts, "u", "bulk_upload"⟩

/-- The enrichment of `loss3P` at clock `ts` with today = 10. -/
def loss3E (ts : Nat) : Enriched :=
  ⟨"016-" ++ toString ts, "016", "cheerios", "Walmart", "National", "lost", -3,
    10, ts, "u", "bulk_upload"⟩

/-- A persisted ledger holding one committed gain of 5 for the
(cheerios, Walmart) key, effective day 10. -/
def ledger0 : Ledger :=
  [⟨"016-0", "016", "cheerios", "Walmart", "National", "live", 5, 10, 0, "u",
    "api"⟩]

/-- Single submission with a negative quantity and intent planned (quantity
-10, effective day 50). -/
def parsedNeg : ParsedData :=
  ⟨some "cheerios", some "walmart", some (-10), some "planned", some 50⟩

/-- Single submission with quantity 10 and intent planned, effective day 50. -/
def parsedPos : ParsedData :=
  ⟨some "cheerios", some "walmart", some 10, some "planned", some 50⟩

/-- The enrichment of `parsedPos` with today = 10, clock 7. -/
def ePos : Enriched :=
  ⟨"016-7", "016", "cheerios", "Walmart", "National", "planned", 10, 50, 7,
    "u", "api"⟩

/-- Single submission with quantity 0: falsy, so the required-fields check
fails. -/
def parsedZeroQ : ParsedData :=
  ⟨some "cheerios", some "walmart", some 0, some "planned", some 50⟩

/-- Single submission with quantity -7 and intent lost. -/
def parsedNeg7 : ParsedData :=
  ⟨some "cheerios", some "walmart", some (-7), some "lost", some 50⟩

/-- Single submission whose product text resolves to nothing under
`zeroScore`. -/
def parsedZZZ : ParsedData :=
  ⟨some "zzz", some "walmart", some 5, some "planned", some 50⟩

/-- A committed gain of 10 effective day 5 (a past day relative to today =
10). -/
def pastGain : Enriched :=
  ⟨"016-1", "016", "cheerios", "Walmart", "National", "live", 10, 5, 1, "u",
    "api"⟩

/-- A committed gain of 5 effective day 20 (a future day relative to today =
10). -/
def futureGain : Enriched :=
  ⟨"016-2", "016", "cheerios", "Walmart", "National", "planned", 5, 20, 2, "u",
    "api"⟩

/-- The two-row ledger of the aggregation round-trip instance. -/
def txns8 : Ledger := [pastGain, futureGain]

/-!
Helper lemmas.
-/

/-- The enriched dict has no key "sku_id" (its SKU code sits under "sku"). -/
theorem dictGet_sku_id (t : Enriched) : t.dictGet "sku_id" = none := rfl

/-- database.check_for_duplicate raises KeyError at its first parameter read. -/
theorem check_for_duplicate_keyError (ledger : Ledger) (t : Enriched) :
    check_for_duplicate ledger t = .error (.keyError "sku_id") := rfl

/-- logic.process_new_transaction always raises: AttributeError for a loss
(the missing database.get_current_total_for_item), otherwise KeyError "sku_id"
inside the duplicate check. -/
theorem process_new_transaction_error (ledger : Ledger) (t : Enriched) :
    process_new_transaction ledger t =
      .error (if t.quantity_changed < 0 then
          .attributeError "get_current_total_for_item"
        else .keyError "sku_id") := by
  unfold process_new_transaction
  split
  next h => rfl
  next h => rw [check_for_duplicate_keyError]

/-- A single-transaction call never changes the ledger. -/
theorem applyOp_single (score : String → String → Nat) (md : MasterData)
    (ledger : Ledger) (today now : Nat) (parsed : ParsedData)
    (uid src : String) :
    applyOp score md ledger (.single today now parsed uid src) = ledger := by
  simp only [applyOp]
  cases h : validate_and_enrich_data score md today now parsed uid src with
  | error e => rfl
  | ok e =>
    dsimp only
    rw [process_new_transaction_error]

/-!
Claims C2 and C6: the single-transaction commit path.
-/

/-- C2: the claim states that for a loss, process_new_transaction computes the
date-restricted running total of the ledger and raises a business-rule error
naming the quantity and that total when the loss exceeds it.  The code instead
calls database.get_current_total_for_item (logic.py line 70), a function
database.py does not define, so every loss raises AttributeError before any
total is computed; database.get_total_for_item_by_date (the function the claim
describes) exists but is never called.  This theorem evaluates the code at the
failing inputs. -/
theorem claim_C2_loss_check_crashes (ledger : Ledger) (e : Enriched)
    (h : e.quantity_changed < 0) :
    process_new_transaction ledger e =
      .error (.attributeError "get_current_total_for_item") := by
  rw [process_new_transaction_error, if_pos h]

/-- C2 witness: the concrete loss of 5 cheerios at Walmart crashes with the
AttributeError. -/
theorem claim_C2_witness :
    process_new_transaction [] (lossE 1) =
      .error (.attributeError "get_current_total_for_item") :=
  claim_C2_loss_check_crashes [] (lossE 1) (by decide)

/-- C6: the claim states that a first submission of a fresh
(product, retailer, quantity_delta, effective_date) tuple succeeds and an
identical second one fails with a duplicate error.  In the code no
single-transaction submission ever succeeds: database.check_for_duplicate and
database.insert_transaction read the dict keys "sku_id" / "retailer_id"
(database.py lines 120-121, 130-136) which the enriched dict of
logic.validate_and_enrich_data does not contain (logic.py line 66 uses "sku"
and "retailer"), so every gain raises KeyError "sku_id" and every loss the
AttributeError of C2 — the first submission already fails and nothing is ever
committed, duplicate or not (the bulk path performs no duplicate check at
all). -/
theorem claim_C6_commit_always_raises (ledger : Ledger) (e : Enriched) :
    process_new_transaction ledger e =
      .error (if e.quantity_changed < 0 then
          .attributeError "get_current_total_for_item"
        else .keyError "sku_id") :=
  process_new_transaction_error ledger e

/-!
Ledger-total lemmas and the bulk simulation invariant.
-/

/-- Date-restricted total of the empty ledger. -/
theorem get_total_nil (p r : String) (d : Nat) :
    get_total_for_item_by_date [] p r d = 0 := rfl

/-- Peeling one row off a date-restricted total. -/
theorem get_total_cons (t : Enriched) (l : Ledger) (p r : String) (d : Nat) :
    get_total_for_item_by_date (t :: l) p r d =
      (if t.product_name = p ∧ t.retailer = r ∧ t.effective_date ≤ d then
        t.quantity_changed else 0) + get_total_for_item_by_date l p r d := by
  unfold get_total_for_item_by_date
  rw [List.filter_cons]
  by_cases h : t.product_name = p ∧ t.retailer = r ∧ t.effective_date ≤ d
  · rw [if_pos h, if_pos]
    · simp
    · simp only [Bool.and_eq_true, beq_iff_eq, decide_eq_true_eq]
      exact ⟨⟨h.1, h.2.1⟩, h.2.2⟩
  · rw [if_neg h, if_neg]
    · simp
    · simp only [Bool.and_eq_true, beq_iff_eq, decide_eq_true_eq]
      intro hc
      exact h ⟨hc.1.1, hc.1.2, hc.2⟩

/-- Date-restricted totals add over ledger concatenation. -/
theorem get_total_append (l1 l2 : Ledger) (p r : String) (d : Nat) :
    get_total_for_item_by_date (l1 ++ l2) p r d =
      get_total_for_item_by_date l1 p r d +
        get_total_for_item_by_date l2 p r d := by
  unfold get_total_for_item_by_date
  rw [List.filter_append, List.map_append, List.sum_append]

/-- A ledger all of whose rows take effect after `d` contributes nothing on or
before `d`. -/
theorem get_total_eq_zero_of_late (l : Ledger) (p r : String) (d : Nat)
    (h : ∀ t ∈ l, d < t.effective_date) :
    get_total_for_item_by_date l p r d = 0 := by
  unfold get_total_for_item_by_date
  rw [List.filter_eq_nil_iff.mpr]
  · rfl
  · intro t ht
    simp only [Bool.and_eq_true, beq_iff_eq, decide_eq_true_eq, not_and]
    intro _ _
    have := h t ht
    omega
  -- the filter drops every row because its date test fails

/-- The rows kept by the simulation form a sublist of its input. -/
theorem bulkSimulate_sublist (st : String × String → Int)
    (l : List Enriched) : (bulkSimulate st l).1.Sublist l := by
  induction l generalizing st with
  | nil => simp [bulkSimulate]
  | cons t rest ih =>
    rw [bulkSimulate]
    split
    · exact (ih st).cons t
    · exact (ih _).cons₂ t

/-- The heart of the non-negativity invariant: walking date-sorted rows from a
componentwise non-negative running state, the rows the simulation keeps have
non-negative date-restricted totals relative to that state, for every cutoff
date. -/
theorem bulkSimulate_nonneg (l : List Enriched)
    (hsort : l.Pairwise fun a b => a.effective_date ≤ b.effective_date)
    (st : String × String → Int) (hst : ∀ k, 0 ≤ st k) (p r : String)
    (d : Nat) :
    0 ≤ st (p, r) +
      get_total_for_item_by_date (bulkSimulate st l).1 p r d := by
  induction l generalizing st with
  | nil =>
    rw [bulkSimulate]
    simpa [get_total_nil] using hst (p, r)
  | cons t rest ih =>
    rcases List.pairwise_cons.mp hsort with ⟨hhead, htail⟩
    rw [bulkSimulate]
    split
    next hrej =>
      exact ih htail st hst
    next hacc =>
      have hst' : ∀ k, 0 ≤ updState st (t.product_name, t.retailer)
          (st (t.product_name, t.retailer) + t.quantity_changed) k := by
        intro k
        unfold updState
        split
        · rcases le_or_lt 0 t.quantity_changed with hq | hq
          · have := hst (t.product_name, t.retailer)
            omega
          · rcases not_and_or.mp hacc with hc | hc
            · exact absurd hq hc
            · push_neg at hc
              rw [abs_of_neg hq] at hc
              omega
        · exact hst k
      have IH := ih htail _ hst'
      rw [get_total_cons]
      by_cases hk : t.product_name = p ∧ t.retailer = r
      · have hkey : ((p, r) : String × String) = (t.product_name, t.retailer) := by
          rw [hk.1, hk.2]
        by_cases hd : t.effective_date ≤ d
        · rw [if_pos ⟨hk.1, hk.2, hd⟩, hkey]
          rw [updState, if_pos hkey] at IH
          omega
        · rw [if_neg fun hc => hd hc.2.2]
          have hz : get_total_for_item_by_date
              (bulkSimulate (updState st (t.product_name, t.retailer)
                (st (t.product_name, t.retailer) + t.quantity_changed)) rest).1
              p r d = 0 := by
            apply get_total_eq_zero_of_late
            intro u hu
            have hu2 : u ∈ rest := (bulkSimulate_sublist _ rest).subset hu
            have := hhead u hu2
            omega
          rw [hz]
          have := hst (p, r)
          omega
      · rw [if_neg fun hc => hk ⟨hc.1, hc.2.1⟩]
        rw [updState, if_neg] at IH
        · simpa using IH
        · intro hc
          rw [Prod.mk.injEq] at hc
          exact hk ⟨hc.1.symm, hc.2.symm⟩

/-- Order relaxation: a (date, timestamp)-sorted list is date-sorted. -/
theorem bulkSortedRows_dateSorted (score : String → String → Nat)
    (md : MasterData) (today : Nat) (uid : String)
    (rows : List (ParsedData × Nat)) :
    (bulkSortedRows score md today uid rows).Pairwise fun a b =>
      a.effective_date ≤ b.effective_date := by
  unfold bulkSortedRows
  refine (List.sorted_insertionSort bulkLE _).imp ?_
  intro a b h
  rcases h with h | ⟨h, _⟩
  · omega
  · omega

/-- Every batch's surviving rows have non-negative date-restricted totals for
every key and every cutoff date. -/
theorem survivors_nonneg (score : String → String → Nat) (md : MasterData)
    (today : Nat) (uid : String) (rows : List (ParsedData × Nat))
    (p r : String) (d : Nat) :
    0 ≤ get_total_for_item_by_date
      (bulkSimOutcome score md today uid rows).1 p r d := by
  have h := bulkSimulate_nonneg (bulkSortedRows score md today uid rows)
    (bulkSortedRows_dateSorted score md today uid rows) (fun _ => 0)
    (fun _ => le_refl 0) p r d
  simpa [bulkSimOutcome] using h

/-- A bulk call leaves the ledger unchanged or appends exactly the rows that
survived simulation. -/
theorem process_bulk_ledger_cases (score : String → String → Nat)
    (md : MasterData) (today : Nat) (uid : String)
    (rows : List (ParsedData × Nat)) (ledger : Ledger) :
    (process_bulk_file score md today uid rows ledger).ledger = ledger ∨
      (process_bulk_file score md today uid rows ledger).ledger =
        ledger ++ (bulkSimOutcome score md today uid rows).1 := by
  unfold process_bulk_file
  split
  · exact Or.inl rfl
  split
  · exact Or.inl rfl
  split
  · exact Or.inr rfl
  · exact Or.inl rfl

/-!
Claim C1: the non-negativity invariant.
-/

/-- C1: over every sequence of calls to the two commit paths starting from an
empty transactions table, the date-restricted running total of every
(product, retailer) key is non-negative at every cutoff date — in particular at
every date that was today at any commit check.  The proof does not depend on
the bulk INSERT failing: a batch only ever persists rows whose per-key
date-restricted prefix sums the zero-seeded simulation kept non-negative, and
the single-transaction path never commits (see C2/C6). -/
theorem claim_C1_nonneg_invariant (score : String → String → Nat)
    (md : MasterData) (ops : List Op) (p r : String) (d : Nat) :
    0 ≤ get_total_for_item_by_date (runOps score md ops) p r d := by
  suffices h : ∀ l : Ledger, (∀ p2 r2 d2, 0 ≤ get_total_for_item_by_date l p2 r2 d2) →
      ∀ p2 r2 d2, 0 ≤ get_total_for_item_by_date
        (List.foldl (applyOp score md) l ops) p2 r2 d2 by
    exact h [] (fun p2 r2 d2 => by rw [get_total_nil]) p r d
  induction ops with
  | nil => exact fun l hl => hl
  | cons op rest ih =>
    intro l hl
    rw [List.foldl_cons]
    apply ih
    intro p2 r2 d2
    cases op with
    | single today now parsed uid src =>
      rw [applyOp_single]
      exact hl p2 r2 d2
    | bulk today uid rows2 =>
      show 0 ≤ get_total_for_item_by_date
        (process_bulk_file score md today uid rows2 l).ledger p2 r2 d2
      rcases process_bulk_ledger_cases score md today uid rows2 l with h | h
      · rw [h]; exact hl p2 r2 d2
      · rw [h, get_total_append]
        exact add_nonneg (hl p2 r2 d2)
          (survivors_nonneg score md today uid rows2 p2 r2 d2)

/-!
Claim C5: bulk commit atomicity and result accounting.
-/

/-- The bulk INSERT's column list names "sku", a column the `transactions`
table created by database.init_db_and_seed does not have. -/
theorem bulkInsertPrepares_eq_false : bulkInsertPrepares = false := by decide

/-- C5: every bulk call returns the persisted-row count together with the full
per-row error list, and persistence is all-or-nothing.  Exactly one of three
outcomes occurs: every surviving row is appended and counted; the persistence
step fails, nothing is appended, the count is 0, and exactly one additional
error entry follows the per-row errors; or no row survived, nothing is
appended and the count is 0.  (On the schema this repository creates the
INSERT always fails — `bulkInsertPrepares_eq_false` — so the first outcome is
never taken at runtime; the theorem covers it so the accounting does not rest
on that failure.) -/
theorem claim_C5_bulk_atomicity (score : String → String → Nat)
    (md : MasterData) (today : Nat) (uid : String)
    (rows : List (ParsedData × Nat)) (ledger : Ledger) :
    ((process_bulk_file score md today uid rows ledger).ledger =
        ledger ++ (bulkSimOutcome score md today uid rows).1 ∧
      (process_bulk_file score md today uid rows ledger).count =
        (bulkSimOutcome score md today uid rows).1.length ∧
      (process_bulk_file score md today uid rows ledger).errors =
        (enrichRows score md today uid 0 rows).2 ++
          (bulkSimOutcome score md today uid rows).2) ∨
    ((process_bulk_file score md today uid rows ledger).ledger = ledger ∧
      (process_bulk_file score md today uid rows ledger).count = 0 ∧
      (bulkSimOutcome score md today uid rows).1 ≠ [] ∧
      (process_bulk_file score md today uid rows ledger).errors =
        (enrichRows score md today uid 0 rows).2 ++
          (bulkSimOutcome score md today uid rows).2 ++ [dbInsertFailMsg]) ∨
    ((process_bulk_file score md today uid rows ledger).ledger = ledger ∧
      (process_bulk_file score md today uid rows ledger).count = 0 ∧
      (bulkSimOutcome score md today uid rows).1 = [] ∧
      (process_bulk_file score md today uid rows ledger).errors =
        (enrichRows score md today uid 0 rows).2 ++
          (bulkSimOutcome score md today uid rows).2) := by
  unfold process_bulk_file
  split
  next henr =>
    refine Or.inr (Or.inr ⟨rfl, rfl, ?_, ?_⟩)
    · unfold bulkSimOutcome bulkSortedRows
      rw [henr]
      rfl
    · have hsim : (bulkSimOutcome score md today uid rows).2 = [] := by
        unfold bulkSimOutcome bulkSortedRows
        rw [henr]
        rfl
      rw [hsim, List.append_nil]
  split
  next hsim => exact Or.inr (Or.inr ⟨rfl, rfl, hsim, rfl⟩)
  split
  next hprep => exact Or.inl ⟨rfl, rfl, rfl⟩
  next hsim hprep => exact Or.inr (Or.inl ⟨rfl, rfl, hsim, rfl⟩)

/-!
Claim C3: seeding of the bulk simulation totals.
-/

/-- C3 counterexample: a persisted ledger holds a committed gain of 5 for
(cheerios, Walmart) with effective date 10, and a batch submits a single loss
of 3 with the same key and date.  The persisted total as of that date is 5 and
3 <= 5, so under the claim ("the running total ... is seeded from the
persisted ledger's total as of that row's effective date, not from zero") the
row would pass the loss check.  The code seeds the in-memory total from the
empty dict instead (logic.py line 100, `temp_state.get(key, 0)`) and never
calls database.get_total_for_item_by_date: the row is rejected with a
consistency error reporting a simulated total of 0, and nothing survives. -/
theorem claim_C3_counterexample :
    get_total_for_item_by_date ledger0 "cheerios" "Walmart" 10 = 5 ∧
    3 ≤ get_total_for_item_by_date ledger0 "cheerios" "Walmart" 10 ∧
    (bulkSimOutcome exactScore md0 10 "u" [(loss3P, 1)]).1 = [] ∧
    (bulkSimOutcome exactScore md0 10 "u" [(loss3P, 1)]).2 =
      [consistencyMsg (loss3E 1) 0] ∧
    (process_bulk_file exactScore md0 10 "u" [(loss3P, 1)] ledger0).ledger =
      ledger0 := by
  refine ⟨by decide, by decide, ?_, ?_, ?_⟩ <;> rfl

/-- C3 as amended: the in-memory running total is seeded from zero — the
persisted ledger is never consulted during enrichment or simulation, so the
returned count and error list are the same against any persisted ledger; in
particular the first row in application order, when a loss, is always checked
against a total of 0 and rejected with an error recording that zero total. -/
theorem claim_C3_amended (score : String → String → Nat) (md : MasterData)
    (today : Nat) (uid : String) (rows : List (ParsedData × Nat))
    (ledger : Ledger) :
    ((process_bulk_file score md today uid rows ledger).count =
        (process_bulk_file score md today uid rows []).count ∧
      (process_bulk_file score md today uid rows ledger).errors =
        (process_bulk_file score md today uid rows []).errors) ∧
    (∀ trx tail, bulkSortedRows score md today uid rows = trx :: tail →
      trx.quantity_changed < 0 →
      (bulkSimOutcome score md today uid rows).2.head? =
        some (consistencyMsg trx 0)) := by
  constructor
  · unfold process_bulk_file
    split
    · exact ⟨rfl, rfl⟩
    split
    · exact ⟨rfl, rfl⟩
    split
    · exact ⟨rfl, rfl⟩
    · exact ⟨rfl, rfl⟩
  · intro trx tail hsorted hneg
    unfold bulkSimOutcome
    rw [hsorted, bulkSimulate, if_pos ⟨hneg, abs_pos.mpr (ne_of_lt hneg)⟩]
    rfl

/-- C3 amended witness at the counterexample instance. -/
theorem claim_C3_amended_witness :
    (bulkSimOutcome exactScore md0 10 "u" [(loss3P, 1)]).2.head? =
      some (consistencyMsg (loss3E 1) 0) ∧
    (process_bulk_file exactScore md0 10 "u" [(loss3P, 1)] ledger0).count =
      (process_bulk_file exactScore md0 10 "u" [(loss3P, 1)] []).count := by
  have h := claim_C3_amended exactScore md0 10 "u" [(loss3P, 1)] ledger0
  exact ⟨h.2 (loss3E 1) [] (by decide) (by decide), h.1.1⟩

/-!
Claim C4: intra-batch ordering and consistency.
-/

/-- C4 counterexample: the claim demands that the batch
[gain of 5, loss of 5, loss of 5] on one day for one key accept exactly the
first two rows and reject the third in **any** upload order.  Uploaded as
[loss, loss, gain] (log timestamps 1, 2, 3), the sort key
(effective_date, log_timestamp) keeps file order for same-day rows, both
losses are evaluated before the gain against a running total of 0, and the
simulation accepts exactly one row (the gain) while rejecting two. -/
theorem claim_C4_counterexample :
    (bulkSimOutcome exactScore md0 100 "u"
      [(lossP, 1), (lossP, 2), (gainP, 3)]).1 = [gainE 3] ∧
    (bulkSimOutcome exactScore md0 100 "u"
      [(lossP, 1), (lossP, 2), (gainP, 3)]).2 =
      [consistencyMsg (lossE 1) 0, consistencyMsg (lossE 2) 0] := by
  exact ⟨rfl, rfl⟩

/-- C4 as amended: same-day rows are applied in log-timestamp order (which for
bulk rows follows enrichment, i.e. file, order), so the batch accepts exactly
the gain and the first loss and rejects the remaining loss with one
consistency error precisely when the gain precedes the losses in that order —
uploaded gain-first, and also uploaded second but carrying the earliest log
timestamp, the accepted rows are [gain, first loss]; the rejected loss is
evaluated against the total excluding it. -/
theorem claim_C4_amended :
    ((bulkSimOutcome exactScore md0 100 "u"
        [(gainP, 1), (lossP, 2), (lossP, 3)]).1 = [gainE 1, lossE 2] ∧
      (bulkSimOutcome exactScore md0 100 "u"
        [(gainP, 1), (lossP, 2), (lossP, 3)]).2 =
        [consistencyMsg (lossE 3) 0]) ∧
    ((bulkSimOutcome exactScore md0 100 "u"
        [(lossP, 2), (gainP, 1), (lossP, 3)]).1 = [gainE 1, lossE 2] ∧
      (bulkSimOutcome exactScore md0 100 "u"
        [(lossP, 2), (gainP, 1), (lossP, 3)]).2 =
        [consistencyMsg (lossE 3) 0]) := by
  exact ⟨⟨rfl, rfl⟩, ⟨rfl, rfl⟩⟩

/-!
Enrichment characterization, claims C7 and C10.
-/

/-- Inversion of a successful enrichment: the quantity and intent fields were
truthy, the effective date is the parsed one defaulted to today, and according
to the lowercased intent the signed delta is `abs(quantity)` (planned, with the
status decided by the date) or `-abs(quantity)` (lost). -/
theorem validate_ok_fields (score : String → String → Nat) (md : MasterData)
    (today now : Nat) (parsed : ParsedData) (uid src : String) (e : Enriched)
    (h : validate_and_enrich_data score md today now parsed uid src = .ok e) :
    ∃ q intent_input, truthyInt parsed.quantity = some q ∧
      truthyStr parsed.status = some intent_input ∧
      e.effective_date = parsed.effective_date.getD today ∧
      ((pyLower intent_input = "planned" ∧ e.quantity_changed = |q| ∧
        e.status = if today < parsed.effective_date.getD today then "planned"
          else "live") ∨
       (pyLower intent_input = "lost" ∧ e.quantity_changed = -|q| ∧
        e.status = "lost")) := by
  unfold validate_and_enrich_data at h
  cases hp : truthyStr parsed.product_name with
  | none => rw [hp] at h; exact absurd h (by simp)
  | some product_input =>
  cases hr : truthyStr parsed.retailer_name with
  | none => rw [hp, hr] at h; exact absurd h (by simp)
  | some retailer_input =>
  cases hq : truthyInt parsed.quantity with
  | none => rw [hp, hr, hq] at h; exact absurd h (by simp)
  | some q =>
  cases hi : truthyStr parsed.status with
  | none => rw [hp, hr, hq, hi] at h; exact absurd h (by simp)
  | some intent_input =>
  rw [hp, hr, hq, hi] at h
  simp only at h
  refine ⟨q, intent_input, rfl, rfl, ?_⟩
  cases hf1 : find_best_match score product_input
      (md.skus.map fun r => r.product_name) with
  | error e1 => rw [hf1] at h; exact absurd h (by simp)
  | ok o1 =>
  cases o1 with
  | none => rw [hf1] at h; exact absurd h (by simp)
  | some sku_key =>
  rw [hf1] at h
  simp only at h
  cases hf2 : find_best_match score retailer_input
      (md.retailers.map fun r => r.retailer_key) with
  | error e2 => rw [hf2] at h; exact absurd h (by simp)
  | ok o2 =>
  cases o2 with
  | none => rw [hf2] at h; exact absurd h (by simp)
  | some retailer_key =>
  rw [hf2] at h
  simp only at h
  cases hs1 : md.skus.find? (fun r => r.product_name == sku_key) with
  | none => rw [hs1] at h; exact absurd h (by simp)
  | some skuRow =>
  rw [hs1] at h
  simp only at h
  cases hs2 : md.retailers.find? (fun r => r.retailer_key == retailer_key) with
  | none => rw [hs2] at h; exact absurd h (by simp)
  | some retRow =>
  rw [hs2] at h
  simp only at h
  by_cases hplanned : pyLower intent_input = "planned"
  · rw [if_pos hplanned] at h
    rw [Except.ok.injEq] at h
    subst h
    exact ⟨rfl, Or.inl ⟨hplanned, rfl, rfl⟩⟩
  · rw [if_neg hplanned] at h
    by_cases hlost : pyLower intent_input = "lost"
    · rw [if_pos hlost] at h
      rw [Except.ok.injEq] at h
      subst h
      exact ⟨rfl, Or.inr ⟨hlost, rfl, rfl⟩⟩
    · rw [if_neg hlost] at h
      exact absurd h (by simp)

/-- C7 counterexample: the input (cheerios, walmart, quantity -10, intent
planned, effective day 50, today day 10) is accepted — a negative quantity is
not rejected — with status "planned", and the claim's predicted
quantity_delta of +q = -10 is wrong: the code stores abs(quantity) = +10
(logic.py line 57). -/
theorem claim_C7_counterexample :
    (validate_and_enrich_data exactScore md0 10 7 parsedNeg "u"
        "api").toOption.map Enriched.quantity_changed = some 10 ∧
    (validate_and_enrich_data exactScore md0 10 7 parsedNeg "u"
        "api").toOption.map Enriched.quantity_changed ≠ some (-10) ∧
    (validate_and_enrich_data exactScore md0 10 7 parsedNeg "u"
        "api").toOption.map Enriched.status = some "planned" := by
  refine ⟨rfl, ?_, rfl⟩
  intro hc
  rw [show (validate_and_enrich_data exactScore md0 10 7 parsedNeg "u"
      "api").toOption.map Enriched.quantity_changed = some 10 from rfl] at hc
  exact absurd (Option.some.injEq _ _ ▸ hc) (by decide)

/-- C7 as amended: for every accepted input with (possibly negative) quantity
q, intent planned with a future effective date gives status "planned" and
delta +abs(q); intent planned with effective date on or before today gives
status "live" and delta +abs(q); intent lost gives status "lost" and delta
-abs(q). -/
theorem claim_C7_amended (score : String → String → Nat) (md : MasterData)
    (today now : Nat) (parsed : ParsedData) (uid src : String) (e : Enriched)
    (q : Int) (intent_input : String)
    (hq : truthyInt parsed.quantity = some q)
    (hi : truthyStr parsed.status = some intent_input)
    (h : validate_and_enrich_data score md today now parsed uid src = .ok e) :
    (pyLower intent_input = "planned" → today < e.effective_date →
      e.status = "planned" ∧ e.quantity_changed = |q|) ∧
    (pyLower intent_input = "planned" → e.effective_date ≤ today →
      e.status = "live" ∧ e.quantity_changed = |q|) ∧
    (pyLower intent_input = "lost" →
      e.status = "lost" ∧ e.quantity_changed = -|q|) := by
  obtain ⟨q2, intent2, hq2, hi2, hdate, hcases⟩ :=
    validate_ok_fields score md today now parsed uid src e h
  rw [hq] at hq2
  rw [hi] at hi2
  obtain rfl : q = q2 := Option.some.injEq _ _ ▸ hq2
  obtain rfl : intent_input = intent2 := Option.some.injEq _ _ ▸ hi2
  rcases hcases with ⟨hpl, hqc, hst⟩ | ⟨hlo, hqc, hst⟩
  · refine ⟨fun _ hfut => ⟨?_, hqc⟩, fun _ hpast => ⟨?_, hqc⟩, fun hl => ?_⟩
    · rw [hst, if_pos]
      rw [hdate] at hfut
      exact hfut
    · rw [hst, if_neg]
      rw [hdate] at hpast
      omega
    · rw [hpl] at hl
      exact absurd hl (by decide)
  · refine ⟨fun hp _ => ?_, fun hp _ => ?_, fun _ => ⟨hst, hqc⟩⟩
    · rw [hlo] at hp
      exact absurd hp (by decide)
    · rw [hlo] at hp
      exact absurd hp (by decide)

/-- C7 amended witness: quantity 10, intent planned, effective day 50, today
day 10 enriches to status "planned" with delta 10. -/
theorem claim_C7_amended_witness :
    truthyInt parsedPos.quantity = some 10 ∧
    truthyStr parsedPos.status = some "planned" ∧
    validate_and_enrich_data exactScore md0 10 7 parsedPos "u" "api" =
      .ok ePos ∧
    ePos.status = "planned" ∧ ePos.quantity_changed = |(10 : Int)| := by
  refine ⟨rfl, rfl, rfl, ?_⟩
  have h := claim_C7_amended exactScore md0 10 7 parsedPos "u" "api" ePos 10
    "planned" rfl rfl rfl
  exact h.1 (by decide) (by decide)

/-- C10: the sign of the quantity input is ignored — zero quantity is falsy
and rejected as a missing required field before any enrichment, and every
accepted quantity q yields delta +abs(q) for intent planned and -abs(q) for
intent lost, negative q included. -/
theorem claim_C10_quantity_sign :
    (∀ (score : String → String → Nat) (md : MasterData) (today now : Nat)
      (parsed : ParsedData) (uid src : String),
      parsed.quantity = some 0 →
      validate_and_enrich_data score md today now parsed uid src =
        .error (.valueError missingFieldsMsg)) ∧
    (∀ (score : String → String → Nat) (md : MasterData) (today now : Nat)
      (parsed : ParsedData) (uid src : String) (e : Enriched) (q : Int)
      (intent_input : String),
      truthyInt parsed.quantity = some q →
      truthyStr parsed.status = some intent_input →
      validate_and_enrich_data score md today now parsed uid src = .ok e →
      (pyLower intent_input = "planned" → e.quantity_changed = |q|) ∧
      (pyLower intent_input = "lost" → e.quantity_changed = -|q|)) := by
  constructor
  · intro score md today now parsed uid src h0
    have hq : truthyInt parsed.quantity = none := by
      rw [h0]
      rfl
    unfold validate_and_enrich_data
    cases hp : truthyStr parsed.product_name <;>
      cases hr : truthyStr parsed.retailer_name <;>
        cases hi : truthyStr parsed.status <;> (rw [hq]; try rfl)
  · intro score md today now parsed uid src e q intent_input hq hi h
    obtain ⟨q2, intent2, hq2, hi2, hdate, hcases⟩ :=
      validate_ok_fields score md today now parsed uid src e h
    rw [hq] at hq2
    rw [hi] at hi2
    obtain rfl : q = q2 := Option.some.injEq _ _ ▸ hq2
    obtain rfl : intent_input = intent2 := Option.some.injEq _ _ ▸ hi2
    rcases hcases with ⟨hpl, hqc, _⟩ | ⟨hlo, hqc, _⟩
    · exact ⟨fun _ => hqc, fun hl => absurd hl (by rw [hpl]; decide)⟩
    · exact ⟨fun hp => absurd hp (by rw [hlo]; decide), fun _ => hqc⟩

/-- C10 witness: quantity 0 is rejected as missing, and quantity -7 with
intent lost enriches with delta -7 = -abs(-7). -/
theorem claim_C10_witness :
    validate_and_enrich_data exactScore md0 10 7 parsedZeroQ "u" "api" =
      .error (.valueError missingFieldsMsg) ∧
    ∃ e, validate_and_enrich_data exactScore md0 10 7 parsedNeg7 "u" "api" =
      .ok e ∧ e.quantity_changed = -|(-7 : Int)| := by
  constructor
  · exact claim_C10_quantity_sign.1 exactScore md0 10 7 parsedZeroQ "u" "api"
      rfl
  · refine ⟨⟨"016-7", "016", "cheerios", "Walmart", "National", "lost", -7, 50,
      7, "u", "api"⟩, rfl, ?_⟩
    exact (claim_C10_quantity_sign.2 exactScore md0 10 7 parsedNeg7 "u" "api"
      _ (-7) "lost" rfl rfl rfl).2 rfl

/-!
Resolver lemmas and claim C9.
-/

/-- The scan keeps the starting choice or picks one of the candidates. -/
theorem extractGo_fst (score : String → String → Nat) (q : String) :
    ∀ (cs : List String) (b : String) (s : Nat),
      (extractGo score q (b, s) cs).1 = b ∨
        (extractGo score q (b, s) cs).1 ∈ cs := by
  intro cs
  induction cs with
  | nil => intro b s; exact Or.inl rfl
  | cons c cs ih =>
    intro b s
    rw [extractGo]
    split
    · rcases ih c (score q c) with h | h
      · right
        rw [h]
        exact List.mem_cons_self c cs
      · exact Or.inr (List.mem_cons_of_mem c h)
    · rcases ih b s with h | h
      · exact Or.inl h
      · exact Or.inr (List.mem_cons_of_mem c h)

/-- If the starting score belongs to the starting choice, the result's score
belongs to the result's choice. -/
theorem extractGo_snd (score : String → String → Nat) (q : String) :
    ∀ (cs : List String) (b : String),
      (extractGo score q (b, score q b) cs).2 =
        score q (extractGo score q (b, score q b) cs).1 := by
  intro cs
  induction cs with
  | nil => intro b; rfl
  | cons c cs ih =>
    intro b
    rw [extractGo]
    split
    · exact ih c
    · exact ih b

/-- The scan never lowers the running score. -/
theorem extractGo_le (score : String → String → Nat) (q : String) :
    ∀ (cs : List String) (b : String) (s : Nat),
      s ≤ (extractGo score q (b, s) cs).2 := by
  intro cs
  induction cs with
  | nil => intro b s; exact le_refl s
  | cons c cs ih =>
    intro b s
    rw [extractGo]
    split
    next h => exact le_trans (le_of_lt h) (ih c (score q c))
    next h => exact ih b s

/-- Every candidate's score is bounded by the scan's final score. -/
theorem extractGo_mem_le (score : String → String → Nat) (q : String) :
    ∀ (cs : List String) (b : String) (s : Nat), ∀ c ∈ cs,
      score q c ≤ (extractGo score q (b, s) cs).2 := by
  intro cs
  induction cs with
  | nil => intro b s c hc; exact absurd hc (List.not_mem_nil c)
  | cons d cs ih =>
    intro b s c hc
    rw [extractGo]
    rcases List.mem_cons.mp hc with rfl | hc2
    · split
      next h => exact extractGo_le score q cs c (score q c)
      next h => exact le_trans (le_of_not_lt h) (extractGo_le score q cs b s)
    · split
      · exact ih d (score q d) c hc2
      · exact ih b s c hc2

/-- extractOne returns a member candidate carrying its own score, maximal over
the whole list (the first such, on ties). -/
theorem extractOne_spec (score : String → String → Nat) (q : String)
    (choices : List String) (b : String) (s : Nat)
    (h : extractOne score q choices = some (b, s)) :
    b ∈ choices ∧ s = score q b ∧ ∀ c ∈ choices, score q c ≤ s := by
  cases choices with
  | nil => exact absurd h (by rw [extractOne]; simp)
  | cons c cs =>
    rw [extractOne, Option.some.injEq] at h
    refine ⟨?_, ?_, ?_⟩
    · rcases extractGo_fst score q cs c (score q c) with h1 | h1
      · simp only [h] at h1
        rw [h1]
        exact List.mem_cons_self c cs
      · simp only [h] at h1
        exact List.mem_cons_of_mem c h1
    · have h2 := extractGo_snd score q cs c
      simp only [h] at h2
      exact h2
    · intro d hd
      rcases List.mem_cons.mp hd with rfl | hd2
      · have h3 := extractGo_le score q cs d (score q d)
        simp only [h] at h3
        exact h3
      · have h3 := extractGo_mem_le score q cs c (score q c) d hd2
        simp only [h] at h3
        exact h3

/-- C9: for a truthy query, find_best_match returns the best-scoring candidate
(a member whose lowercased-query score bounds every candidate's) exactly when
that score meets the fixed threshold 80, and returns no match exactly when it
does not; a product or retailer lookup returning no match makes
validate_and_enrich_data fail with a ValueError whose message contains the
exact unresolved input string. -/
theorem claim_C9_resolver_threshold :
    (∀ (score : String → String → Nat) (query : String)
      (choices : List String) (b : String) (s : Nat),
      query ≠ "" →
      extractOne score (pyLower query) choices = some (b, s) →
      b ∈ choices ∧ s = score (pyLower query) b ∧
        (∀ c ∈ choices, score (pyLower query) c ≤ s) ∧
        (find_best_match score query choices = .ok (some b) ↔
          FUZZY_MATCH_THRESHOLD ≤ s) ∧
        (find_best_match score query choices = .ok none ↔
          s < FUZZY_MATCH_THRESHOLD)) ∧
    (∀ (score : String → String → Nat) (md : MasterData) (today now : Nat)
      (parsed : ParsedData) (uid src p : String),
      truthyStr parsed.product_name = some p →
      (truthyStr parsed.retailer_name).isSome = true →
      (truthyInt parsed.quantity).isSome = true →
      (truthyStr parsed.status).isSome = true →
      find_best_match score p (md.skus.map fun r => r.product_name) =
        .ok none →
      validate_and_enrich_data score md today now parsed uid src =
        .error (.valueError (invalidSkuMsg p)) ∧
      ∃ pre post, invalidSkuMsg p = pre ++ p ++ post) ∧
    (∀ (score : String → String → Nat) (md : MasterData) (today now : Nat)
      (parsed : ParsedData) (uid src p rk sk : String),
      truthyStr parsed.product_name = some p →
      truthyStr parsed.retailer_name = some rk →
      (truthyInt parsed.quantity).isSome = true →
      (truthyStr parsed.status).isSome = true →
      find_best_match score p (md.skus.map fun r => r.product_name) =
        .ok (some sk) →
      find_best_match score rk (md.retailers.map fun r => r.retailer_key) =
        .ok none →
      validate_and_enrich_data score md today now parsed uid src =
        .error (.valueError (invalidRetailerMsg rk)) ∧
      ∃ pre post, invalidRetailerMsg rk = pre ++ rk ++ post) := by
  refine ⟨?_, ?_, ?_⟩
  · intro score query choices b s hq hext
    obtain ⟨hmem, hscore, hmax⟩ := extractOne_spec score (pyLower query)
      choices b s hext
    refine ⟨hmem, hscore, hmax, ?_, ?_⟩
    · unfold find_best_match
      rw [if_neg hq, hext]
      by_cases hT : FUZZY_MATCH_THRESHOLD ≤ s
      · simp [hT]
      · simp [hT]
    · unfold find_best_match
      rw [if_neg hq, hext]
      by_cases hT : FUZZY_MATCH_THRESHOLD ≤ s
      · simp only [if_pos hT]
        constructor
        · intro hc
          exact absurd hc (by simp)
        · intro hc
          exact absurd hT (not_le_of_lt hc)
      · simp [hT, lt_of_not_le hT]
  · intro score md today now parsed uid src p hp hr hq hi hf
    obtain ⟨ri, hr2⟩ := Option.isSome_iff_exists.mp hr
    obtain ⟨qi, hq2⟩ := Option.isSome_iff_exists.mp hq
    obtain ⟨ii, hi2⟩ := Option.isSome_iff_exists.mp hi
    constructor
    · unfold validate_and_enrich_data
      rw [hp, hr2, hq2, hi2]
      simp only
      rw [hf]
    · exact ⟨"Invalid SKU: \'", "\'.", rfl⟩
  · intro score md today now parsed uid src p rk sk hp hr hq hi hf1 hf2
    obtain ⟨qi, hq2⟩ := Option.isSome_iff_exists.mp hq
    obtain ⟨ii, hi2⟩ := Option.isSome_iff_exists.mp hi
    constructor
    · unfold validate_and_enrich_data
      rw [hp, hr, hq2, hi2]
      simp only
      rw [hf1]
      simp only
      rw [hf2]
    · exact ⟨"Invalid Retailer: \'", "\'.", rfl⟩

/-- C9 witness: under a scorer giving every candidate 0, the query "zzz"
returns no match (0 < 80) and enrichment fails with the message naming
"zzz". -/
theorem claim_C9_witness :
    find_best_match zeroScore "zzz" ["cheerios"] = .ok none ∧
    validate_and_enrich_data zeroScore md0 10 7 parsedZZZ "u" "api" =
      .error (.valueError (invalidSkuMsg "zzz")) := by
  have h1 := claim_C9_resolver_threshold.1 zeroScore "zzz" ["cheerios"]
    "cheerios" 0 (by decide) rfl
  have hnone : find_best_match zeroScore "zzz" ["cheerios"] = .ok none :=
    h1.2.2.2.2.mpr (by decide)
  exact ⟨hnone, (claim_C9_resolver_threshold.2.1 zeroScore md0 10 7 parsedZZZ
    "u" "api" "zzz" rfl rfl rfl rfl hnone).1⟩

/-!
Claim C8: aggregation cutoff round trip and pivot grand totals.
-/

/-- C8: over a ledger holding one past gain of 10 (effective day 5) and one
future gain of 5 (effective day 20) for the same key with today = day 10, the
grouped aggregation yields net 10 without future rows and net 15 with them,
and the corner Grand Total cell of the future-inclusive pivot is 15; moreover
for every non-empty grouped result the pivot carries the "Grand Total" row and
column and fills every missing (product, retailer) combination with integer
0. -/
theorem claim_C8_aggregation_pivot :
    (execute_query_plan txns8 false 10 = [(("cheerios", "Walmart"), 10)] ∧
      execute_query_plan txns8 true 10 = [(("cheerios", "Walmart"), 15)] ∧
      (processForExport (execute_query_plan txns8 true 10)).cell "Grand Total"
        "Grand Total" = 15) ∧
    (∀ data : List ((String × String) × Int), data ≠ [] →
      "Grand Total" ∈ (processForExport data).rowLabels ∧
      "Grand Total" ∈ (processForExport data).colLabels ∧
      ∀ p r, p ∈ pivotProducts data → r ∈ pivotRetailers data →
        (p, r) ∉ data.map Prod.fst → p ≠ "Grand Total" → r ≠ "Grand Total" →
        (processForExport data).cell p r = 0) := by
  refine ⟨⟨rfl, rfl, rfl⟩, ?_⟩
  intro data hne
  unfold processForExport
  rw [if_neg hne]
  refine ⟨?_, ?_, ?_⟩
  · simp
  · simp
  · intro p r hp hr hmiss hpGT hrGT
    simp only
    rw [if_neg hpGT, if_neg hrGT]
    unfold pivotBase
    rw [List.filter_eq_nil_iff.mpr]
    · rfl
    · intro e he hbeq
      apply hmiss
      rw [beq_iff_eq] at hbeq
      rw [← hbeq]
      exact List.mem_map_of_mem Prod.fst he

/-- C8 witness: a two-entry grouped result with keys (a, b) and (c, d) has the
Grand Total row, and its missing combination (a, d) pivots to 0. -/
theorem claim_C8_witness :
    "Grand Total" ∈
      (processForExport [(("a", "b"), 3), (("c", "d"), 4)]).rowLabels ∧
    (processForExport [(("a", "b"), 3), (("c", "d"), 4)]).cell "a" "d" = 0 := by
  have h := claim_C8_aggregation_pivot.2 [(("a", "b"), 3), (("c", "d"), 4)]
    (by simp)
  exact ⟨h.1, h.2.2 "a" "d" (by decide) (by decide) (by decide) (by decide)
    (by decide)⟩

end CPGPod
